import Mathlib

/-!
Verification of the streaming analytics consumer
(`src/consumers/project_consumer_seabaugh.py`).

The consumer keeps four mutable aggregates — author counts, sentiment
counts, a bounded deque of message timestamps, keyword counts — and
updates every one of them (together with a chart redraw for each) inside
`process_message`.  We embed the consumer state and the per-message update
path as pure Lean functions.  Chart drawing is modelled as an event
appended to a `draws` log; the black-box VADER classifier is a parameter
`classify : String → Except Unit ℚ` returning the compound score (or
failing, which in the Python propagates up to the `try/except` in
`process_message`).  Logged errors are counted in `errors_logged`.
-/

namespace Buzzline

/-- A Kafka message dictionary, restricted to the two fields
`process_message` reads: `message.get("author", "unknown")` and
`message.get("message", "")`.  A missing key is `none`. -/
structure Message where
  author : Option String
  text : Option String
deriving DecidableEq

/-- The module-level mutable state of the consumer:
`author_counts` (a `defaultdict(int)`), `sentiment_counts` (a `Counter`
keyed by "Positive"/"Neutral"/"Negative"), `message_timestamps`
(a `deque(maxlen=100)` of arrival times, in seconds), `keyword_counts`
(a `Counter` over the fixed keyword list), plus a log of chart redraw
events and a count of errors logged by the `except` handler. -/
structure AnalyticsState where
  author_counts : String → Nat
  sentiment_counts : String → Nat
  message_timestamps : List Nat
  keyword_counts : String → Nat
  draws : List String
  errors_logged : Nat

/-- Initial state: all counters zero, no timestamps, no draws. -/
def initState : AnalyticsState :=
  { author_counts := fun _ => 0
    sentiment_counts := fun _ => 0
    message_timestamps := []
    keyword_counts := fun _ => 0
    draws := []
    errors_logged := 0 }

/-- `counter[k] += 1` on a counter represented as a function. -/
def bump (f : String → Nat) (k : String) : String → Nat :=
  fun x => if x = k then f k + 1 else f x

/-- `analyze_sentiment`: obtain the compound score from the classifier and
threshold it — `score >= 0.05` → "Positive", `score <= -0.05` →
"Negative", otherwise "Neutral".  A classifier failure propagates (the
Python exception unwinds out of this function). -/
def analyze_sentiment (classify : String → Except Unit ℚ) (text : String) :
    Except Unit String :=
  match classify text with
  | .error e => .error e
  | .ok score =>
      .ok (if score ≥ 5/100 then "Positive"
           else if score ≤ -(5/100) then "Negative"
           else "Neutral")

/-- `append` on a `deque(maxlen=cap)`: the new element goes on the right
and the oldest elements are evicted from the left so that at most `cap`
remain. -/
def dequeAppend (cap : Nat) (xs : List Nat) (x : Nat) : List Nat :=
  let ys := xs ++ [x]
  if cap < ys.length then ys.drop (ys.length - cap) else ys

/-- `datetime.fromtimestamp(ts).strftime("%H:%M")`, embedded as the
minute-of-day of the (epoch-seconds) timestamp.  Lexicographic order on
the zero-padded "HH:MM" strings coincides with numeric order on
minute-of-day, so sorting these keys is sorting those strings. -/
def minuteKey (ts : Nat) : Nat := (ts / 60) % 1440

/-- The volume buckets drawn by `update_message_volume`: group the
retained timestamps by minute key (`Counter(times)`), sort the keys
ascending (`sorted(time_counts.keys())`), and pair each key with its
count. -/
def volume_buckets (tss : List Nat) : List (Nat × Nat) :=
  let times := tss.map minuteKey
  let sortedTimes := List.insertionSort (· ≤ ·) times.dedup
  sortedTimes.map (fun k => (k, times.count k))

/-- The fixed keyword list configured in the consumer. -/
def keywords : List String := ["Kafka", "Python", "JSON"]

/-- Python `\w` on the ASCII texts at hand: letters, digits, underscore. -/
def isWordChar (c : Char) : Bool := c.isAlphanum || c == '_'

/-- Case-insensitive comparison of two character lists (`re.IGNORECASE`). -/
def ciEq (a b : List Char) : Bool :=
  a.map Char.toLower == b.map Char.toLower

/-- Does `kw` match at position `i` of `text` with word boundaries on both
sides?  This embeds `re.search(rf"\b{kw}\b", text, re.IGNORECASE)`
succeeding at offset `i`: the characters of `kw` appear (case-folded) at
`i`, the previous character (if any) is not a word character, and the
character right after the match (if any) is not a word character. -/
def matchesAt (kw text : List Char) (i : Nat) : Bool :=
  ciEq ((text.drop i).take kw.length) kw
  && (i == 0 || !(isWordChar (text.getD (i - 1) ' ')))
  && (i + kw.length == text.length
      || !(isWordChar (text.getD (i + kw.length) ' ')))

/-- `re.search(rf"\b{kw}\b", text, re.IGNORECASE)` as a Boolean: is there
any position of `text` where `kw` matches as a whole word? -/
def wordSearch (kw text : String) : Bool :=
  (List.range (text.data.length + 1)).any (fun i => matchesAt kw.data text.data i)

/-- `process_keywords`: for each configured keyword, increment its count
by 1 if the whole-word regex finds it anywhere in the text (a single
`if re.search`, so at most one increment per keyword per message). -/
def process_keywords (text : String) (kc : String → Nat) : String → Nat :=
  keywords.foldl (fun m kw => if wordSearch kw text then bump m kw else m) kc

/-- `process_message`: extract `author` (default "unknown") and the text
(default ""), bump the author counter and redraw the author chart, then
run sentiment scoring, the volume update and the keyword scan in that
order, each followed by its chart redraw.  The whole body sits in a
`try/except` that logs any exception; the only modelled source of
exceptions is the classifier, whose failure inside `process_sentiment`
skips everything after the author-chart redraw. -/
def process_message (classify : String → Except Unit ℚ) (now : Nat)
    (msg : Message) (s : AnalyticsState) : AnalyticsState :=
  let author := msg.author.getD "unknown"
  let message_text := msg.text.getD ""
  let s1 := { s with author_counts := bump s.author_counts author
                     draws := s.draws ++ ["author_chart"] }
  match analyze_sentiment classify message_text with
  | .error _ => { s1 with errors_logged := s1.errors_logged + 1 }
  | .ok label =>
      let s2 := { s1 with
        sentiment_counts := bump s1.sentiment_counts label
        draws := s1.draws ++ ["sentiment_chart"] }
      let s3 := { s2 with
        message_timestamps := dequeAppend 100 s2.message_timestamps now
        draws := s2.draws ++ ["volume_chart"] }
      { s3 with
        keyword_counts := process_keywords message_text s3.keyword_counts
        draws := s3.draws ++ ["keyword_chart"] }

/-- Ingest a whole sequence of (arrival-time, message) records in order. -/
def ingestAll (classify : String → Except Unit ℚ)
    (recs : List (Nat × Message)) (s : AnalyticsState) : AnalyticsState :=
  recs.foldl (fun st r => process_message classify r.1 r.2 st) s

/-- Sum of the sentiment tally: `analyze_sentiment` only ever returns one
of these three labels, so this is the total of `sentiment_counts`. -/
def sentimentSum (s : AnalyticsState) : Nat :=
  s.sentiment_counts "Positive" + s.sentiment_counts "Neutral"
    + s.sentiment_counts "Negative"

/-- How many records in a sequence have empty text
(`message.get("message", "")` equal to `""`). -/
def emptyTextCount (recs : List (Nat × Message)) : Nat :=
  (recs.filter (fun r => r.2.text.getD "" = "")).length

end Buzzline

namespace Buzzline

/-! ### Helper lemmas -/

/-- `ingestAll` unfolds one record at a time. -/
theorem ingestAll_cons (classify : String → Except Unit ℚ) (r : Nat × Message)
    (rs : List (Nat × Message)) (s : AnalyticsState) :
    ingestAll classify (r :: rs) s
      = ingestAll classify rs (process_message classify r.1 r.2 s) := rfl

/-- When the classifier succeeds, `process_message` bumps exactly one of the
three sentiment labels, so the tally total grows by one. -/
theorem sentimentSum_process_message (classify : String → Except Unit ℚ)
    (now : Nat) (msg : Message) (s : AnalyticsState) (q : ℚ)
    (h : classify (msg.text.getD "") = .ok q) :
    sentimentSum (process_message classify now msg s) = sentimentSum s + 1 := by
  simp only [process_message, analyze_sentiment, h]
  by_cases h1 : q ≥ 5/100
  · simp [h1, sentimentSum, bump]; omega
  · by_cases h2 : q ≤ -(5/100) <;> simp [h1, h2, sentimentSum, bump] <;> omega

/-- A failing classifier leaves the sentiment tally untouched. -/
theorem sentimentSum_process_message_error (classify : String → Except Unit ℚ)
    (now : Nat) (msg : Message) (s : AnalyticsState)
    (h : classify (msg.text.getD "") = .error ()) :
    sentimentSum (process_message classify now msg s) = sentimentSum s := by
  simp only [process_message, analyze_sentiment, h]
  simp [sentimentSum]

/-- A bounded deque never holds more than its capacity after an append. -/
theorem dequeAppend_length_le (cap : Nat) (xs : List Nat) (x : Nat) :
    (dequeAppend cap xs x).length ≤ cap := by
  simp only [dequeAppend]
  split <;> simp_all
  omega

/-- The deque append keeps a suffix of the old contents plus the new
element: eviction is FIFO, from the oldest end. -/
theorem dequeAppend_suffix (cap : Nat) (xs : List Nat) (x : Nat) :
    List.IsSuffix (dequeAppend cap xs x) (xs ++ [x]) := by
  simp only [dequeAppend]
  split
  · exact List.drop_suffix _ _
  · exact List.suffix_refl _

/-- `process_message` either leaves the timestamp deque alone (classifier
failure) or appends to it through the 100-capped deque. -/
theorem process_message_timestamps (classify : String → Except Unit ℚ)
    (now : Nat) (msg : Message) (s : AnalyticsState) :
    (process_message classify now msg s).message_timestamps = s.message_timestamps
    ∨ (process_message classify now msg s).message_timestamps
        = dequeAppend 100 s.message_timestamps now := by
  rcases he : analyze_sentiment classify (msg.text.getD "") with e | label <;>
    simp [process_message, he]

/-- The buckets snapshot has one entry per distinct minute key of the
retained timestamps, hence no more entries than timestamps. -/
theorem volume_buckets_length_le (tss : List Nat) :
    (volume_buckets tss).length ≤ tss.length := by
  unfold volume_buckets
  simp only [List.length_map]
  calc (List.insertionSort (· ≤ ·) (tss.map minuteKey).dedup).length
      = (tss.map minuteKey).dedup.length :=
        (List.perm_insertionSort _ _).length_eq
    _ ≤ (tss.map minuteKey).length :=
        (List.dedup_sublist _).length_le
    _ = tss.length := List.length_map _ _

end Buzzline

namespace Buzzline

/-! ### Claim theorems -/

/-- C3: the sentiment label assigned from the classifier's compound score
follows exactly the documented thresholding: a score of at least 0.05
yields "Positive", a score of at most -0.05 yields "Negative", and any
score strictly in between yields "Neutral". -/
theorem C3_sentiment_thresholding (classify : String → Except Unit ℚ)
    (text : String) (q : ℚ) (h : classify text = .ok q) :
    (q ≥ 5/100 → analyze_sentiment classify text = .ok "Positive")
    ∧ (q ≤ -(5/100) → analyze_sentiment classify text = .ok "Negative")
    ∧ (-(5/100) < q → q < 5/100 →
        analyze_sentiment classify text = .ok "Neutral") := by
  refine ⟨fun h1 => ?_, fun h2 => ?_, fun h3 h4 => ?_⟩ <;>
    simp only [analyze_sentiment, h]
  · rw [if_pos h1]
  · rw [if_neg (by simp; linarith), if_pos h2]
  · rw [if_neg (by simp; linarith), if_neg (by simp; linarith)]

/-- Witness for C3 at concrete scores 0.1, -0.1 and 0. -/
theorem C3_sentiment_thresholding_witness :
    analyze_sentiment (fun _ => .ok (1/10)) "good" = .ok "Positive"
    ∧ analyze_sentiment (fun _ => .ok (-(1/10))) "bad" = .ok "Negative"
    ∧ analyze_sentiment (fun _ => .ok 0) "meh" = .ok "Neutral" :=
  ⟨(C3_sentiment_thresholding _ "good" (1/10) rfl).1 (by norm_num),
   (C3_sentiment_thresholding _ "bad" (-(1/10)) rfl).2.1 (by norm_num),
   (C3_sentiment_thresholding _ "meh" 0 rfl).2.2 (by norm_num) (by norm_num)⟩

/-- C9: a record with no author field is attributed to the sentinel
author "unknown": its count goes up by exactly one. -/
theorem C9_default_author_unknown (classify : String → Except Unit ℚ)
    (now : Nat) (msg : Message) (s : AnalyticsState) (h : msg.author = none) :
    (process_message classify now msg s).author_counts "unknown"
      = s.author_counts "unknown" + 1 := by
  rcases he : analyze_sentiment classify (msg.text.getD "") with e | label <;>
    simp [process_message, he, h, bump]

/-- Witness for C9 on a concrete authorless record. -/
theorem C9_default_author_unknown_witness :
    (process_message (fun _ => .ok 0) 0 ⟨none, some "hi"⟩ initState).author_counts
        "unknown"
      = initState.author_counts "unknown" + 1 :=
  C9_default_author_unknown _ 0 ⟨none, some "hi"⟩ initState rfl

/-- C10: a message dictionary without a "message" key is processed exactly
as if its text were the empty string — the whole update path is
identical. -/
theorem C10_missing_text_as_empty (classify : String → Except Unit ℚ)
    (now : Nat) (author : Option String) (s : AnalyticsState) :
    process_message classify now ⟨author, none⟩ s
      = process_message classify now ⟨author, some ""⟩ s := rfl

/-- C4: each configured keyword's count rises by exactly the indicator of
a case-insensitive whole-word occurrence in the record's text — hence by
at most 1 per record; word-boundary matching rejects "Python" inside
"Pythonic", and the text "Pythonic developers love Python" bumps the
"Python" count by exactly 1. -/
theorem C4_keyword_whole_word :
    (∀ (text : String) (kc : String → Nat) (kw : String), kw ∈ keywords →
        process_keywords text kc kw
          = kc kw + (if wordSearch kw text then 1 else 0))
    ∧ wordSearch "Python" "Pythonic" = false
    ∧ (∀ kc : String → Nat,
        process_keywords "Pythonic developers love Python" kc "Python"
          = kc "Python" + 1) := by
  refine ⟨?_, by decide, ?_⟩
  · intro text kc kw hkw
    simp only [keywords] at hkw
    fin_cases hkw <;>
      cases h1 : wordSearch "Kafka" text <;>
      cases h2 : wordSearch "Python" text <;>
      cases h3 : wordSearch "JSON" text <;>
      simp_all [process_keywords, keywords, bump]
  · intro kc
    have h1 : wordSearch "Kafka" "Pythonic developers love Python" = false := by
      decide
    have h2 : wordSearch "Python" "Pythonic developers love Python" = true := by
      decide
    have h3 : wordSearch "JSON" "Pythonic developers love Python" = false := by
      decide
    simp [process_keywords, keywords, bump, h1, h2, h3]

/-- Witness for C4 on a concrete text and keyword. -/
theorem C4_keyword_whole_word_witness :
    process_keywords "I love Kafka" (fun _ => 0) "Kafka"
      = (fun _ => (0 : Nat)) "Kafka"
          + (if wordSearch "Kafka" "I love Kafka" then 1 else 0) :=
  C4_keyword_whole_word.1 "I love Kafka" (fun _ => 0) "Kafka" (by decide)

end Buzzline

namespace Buzzline

/-- C5 counterexample: processing a single record from the initial state
already performs four chart redraws inside the per-record update path, so
the update path does have a rendering side effect. -/
theorem C5_counterexample :
    (process_message (fun _ => .ok 0) 0 ⟨some "Eve", some "hi"⟩ initState).draws
      = ["author_chart", "sentiment_chart", "volume_chart", "keyword_chart"]
    ∧ (process_message (fun _ => .ok 0) 0 ⟨some "Eve", some "hi"⟩
        initState).draws ≠ [] := by
  constructor <;> norm_num [process_message, analyze_sentiment, initState]
  simp

/-- C5 amended: far from being free of rendering side effects, every
successfully classified record triggers exactly four chart redraws —
author, sentiment, volume and keyword — inside the per-record update
path (and a classifier failure still triggers the author-chart redraw). -/
theorem C5_render_in_update_path (classify : String → Except Unit ℚ)
    (now : Nat) (msg : Message) (s : AnalyticsState) (q : ℚ)
    (h : classify (msg.text.getD "") = .ok q) :
    (process_message classify now msg s).draws
      = s.draws ++ ["author_chart", "sentiment_chart", "volume_chart",
                    "keyword_chart"] := by
  simp only [process_message, analyze_sentiment, h]
  simp [List.append_assoc]

/-- Witness for C5 on a concrete record. -/
theorem C5_render_in_update_path_witness :
    (process_message (fun _ => .ok 0) 7 ⟨some "Eve", some "hi"⟩ initState).draws
      = initState.draws ++ ["author_chart", "sentiment_chart", "volume_chart",
                            "keyword_chart"] :=
  C5_render_in_update_path _ 7 ⟨some "Eve", some "hi"⟩ initState 0 rfl

/-- C6 counterexample: when the classifier raises, the record is NOT
scored as neutral and the remaining tracker updates are skipped — the
neutral tally stays 0, no timestamp is recorded, no keyword is counted;
only the error is logged (and the author count was already bumped). -/
theorem C6_counterexample :
    (process_message (fun _ => .error ()) 5 ⟨some "Eve", some "Kafka is great"⟩
        initState).sentiment_counts "Neutral" = 0
    ∧ (process_message (fun _ => .error ()) 5 ⟨some "Eve", some "Kafka is great"⟩
        initState).message_timestamps = []
    ∧ (process_message (fun _ => .error ()) 5 ⟨some "Eve", some "Kafka is great"⟩
        initState).keyword_counts "Kafka" = 0
    ∧ (process_message (fun _ => .error ()) 5 ⟨some "Eve", some "Kafka is great"⟩
        initState).errors_logged = 1 := by
  refine ⟨?_, ?_, ?_, ?_⟩ <;>
    simp [process_message, analyze_sentiment, initState]

/-- C6 amended: a classifier failure during ingest is caught by the
per-record `try/except`: the error is logged and nothing is raised to the
caller, but instead of scoring the record as neutral and proceeding, the
sentiment, volume-window and keyword updates for that record are all
skipped — only the author count (and its chart redraw), which precede the
classification, take effect. -/
theorem C6_classifier_failure_skips_rest (classify : String → Except Unit ℚ)
    (now : Nat) (msg : Message) (s : AnalyticsState)
    (h : classify (msg.text.getD "") = .error ()) :
    process_message classify now msg s
      = { s with
          author_counts := bump s.author_counts (msg.author.getD "unknown")
          draws := s.draws ++ ["author_chart"]
          errors_logged := s.errors_logged + 1 } := by
  simp only [process_message, analyze_sentiment, h]

/-- Witness for C6 on a concrete record and failing classifier. -/
theorem C6_classifier_failure_skips_rest_witness :
    process_message (fun _ => .error ()) 5 ⟨some "Eve", some "hello"⟩ initState
      = { initState with
          author_counts := bump initState.author_counts "Eve"
          draws := initState.draws ++ ["author_chart"]
          errors_logged := initState.errors_logged + 1 } :=
  C6_classifier_failure_skips_rest _ 5 ⟨some "Eve", some "hello"⟩ initState rfl

end Buzzline

namespace Buzzline

/-- C1 counterexample: one empty-text record is still scored (empty text
classifies as neutral), so the sentiment tally sums to 1, not to
1 minus the 1 empty-text record. -/
theorem C1_counterexample :
    sentimentSum (ingestAll (fun _ => .ok 0) [(0, ⟨some "Eve", some ""⟩)]
        initState) = 1
    ∧ emptyTextCount [(0, ⟨some "Eve", some ""⟩)] = 1
    ∧ (1 : Nat) ≠ 1 - 1 := by
  refine ⟨?_, by decide, by decide⟩
  norm_num [ingestAll, process_message, analyze_sentiment, initState, bump,
    sentimentSum]
  decide

/-- C1 amended: the ingest path never skips sentiment scoring — an
empty-text record is classified like any other (compound score 0 makes it
neutral) — so whenever the classifier succeeds on every record, the
sentiment tally counts sum to N, the full number of ingested records,
with no deduction for empty-text records. -/
theorem C1_sentiment_sum_counts_all (classify : String → Except Unit ℚ)
    (recs : List (Nat × Message))
    (h : ∀ r ∈ recs, ∃ q, classify (r.2.text.getD "") = .ok q) :
    sentimentSum (ingestAll classify recs initState) = recs.length := by
  have main : ∀ (rs : List (Nat × Message)) (s : AnalyticsState),
      (∀ r ∈ rs, ∃ q, classify (r.2.text.getD "") = .ok q) →
      sentimentSum (ingestAll classify rs s) = sentimentSum s + rs.length := by
    intro rs
    induction rs with
    | nil => intro s _; simp [ingestAll]
    | cons r rs ih =>
        intro s hr
        obtain ⟨q, hq⟩ := hr r (List.mem_cons_self _ _)
        rw [ingestAll_cons, ih _ (fun x hx => hr x (List.mem_cons_of_mem _ hx)),
          sentimentSum_process_message classify r.1 r.2 s q hq]
        simp [List.length_cons]
        omega
  rw [main recs initState h]
  simp [sentimentSum, initState]

/-- Witness for C1 amended: two records, one with empty text, sum to 2. -/
theorem C1_sentiment_sum_counts_all_witness :
    sentimentSum (ingestAll (fun _ => .ok 0)
        [(0, ⟨some "Eve", some "hi"⟩), (1, ⟨none, some ""⟩)] initState) = 2 :=
  C1_sentiment_sum_counts_all _ _ (fun _ _ => ⟨0, rfl⟩)

/-- C7: after ingesting any sequence of records, the timestamp deque holds
at most 100 entries, the snapshot derived from it has at most 100 minute
buckets, and eviction is FIFO — the deque after an append is a suffix of
the old contents followed by the new timestamp. -/
theorem C7_volume_window_bounded (classify : String → Except Unit ℚ)
    (recs : List (Nat × Message)) :
    (ingestAll classify recs initState).message_timestamps.length ≤ 100
    ∧ (volume_buckets
        (ingestAll classify recs initState).message_timestamps).length ≤ 100
    ∧ ∀ (xs : List Nat) (x : Nat),
        List.IsSuffix (dequeAppend 100 xs x) (xs ++ [x]) := by
  have hlen : ∀ (rs : List (Nat × Message)) (s : AnalyticsState),
      s.message_timestamps.length ≤ 100 →
      (ingestAll classify rs s).message_timestamps.length ≤ 100 := by
    intro rs
    induction rs with
    | nil => intro s hs; simpa [ingestAll] using hs
    | cons r rs ih =>
        intro s hs
        rw [ingestAll_cons]
        apply ih
        rcases process_message_timestamps classify r.1 r.2 s with h | h
        · rw [h]; exact hs
        · rw [h]; exact dequeAppend_length_le _ _ _
  have h1 : (ingestAll classify recs initState).message_timestamps.length ≤ 100 :=
    hlen recs initState (by simp [initState])
  exact ⟨h1, le_trans (volume_buckets_length_le _) h1,
    fun xs x => dequeAppend_suffix 100 xs x⟩

/-- C8: the snapshot's volume buckets are sorted by bucket key in strictly
increasing order, for every possible content of the timestamp window. -/
theorem C8_buckets_sorted_ascending (tss : List Nat) :
    List.Sorted (· < ·) ((volume_buckets tss).map Prod.fst) := by
  simp only [volume_buckets, List.map_map]
  have hmap : (Prod.fst ∘ fun k => (k, (tss.map minuteKey).count k))
      = fun k : Nat => k := rfl
  rw [hmap, List.map_id']
  apply List.Sorted.lt_of_le
  · exact List.sorted_insertionSort _ _
  · exact ((List.perm_insertionSort _ _).nodup_iff).mpr (List.nodup_dedup _)

end Buzzline
